import Mathlib

/-!
# Verification of the Resume_Parser matching/scoring engine and resume agent

The repository's scoring engine (`matching_agent.py`, `job_description_agent.py`,
the data models and the text processor) is exercised by the repository's tests
but its own source is not present; following the spec, the scoring engine is
modelled here from the spec's words, kept consistent with the repository tests
in `tests/test_agents.py`.  The resume agent (`agents/resume_agent.py`) is
present and is embedded from its source.

Scores are modelled as exact rationals; the spec's weight-sum tolerance of
`1e-6` is the rational `1/1000000`.
-/

namespace ResumeParser

/-- Modelled from the spec: error kinds of the scoring engine
(`InsufficientDataError`, `InvalidConfigError`, `MalformedProfileError`,
spec section 7).  The engine source `matching_agent.py` is missing from the
sources. -/
inductive ScoreError where
  | insufficientData
  | invalidConfig
  | malformedProfile
deriving DecidableEq

/-- Modelled from the spec: `CandidateProfile` (spec section 3); the data-model
source `models/data_models.py` is missing.  Only the scored fields are kept:
`skills` and `yearsOfExperience`. -/
structure CandidateProfile where
  skills : List String
  yearsOfExperience : Option Nat
deriving DecidableEq

/-- Modelled from the spec: `JobProfile` (spec section 3); the data-model
source is missing.  Only the scored fields are kept. -/
structure JobProfile where
  id : String
  requiredSkills : List String
  yearsRequired : Option Nat
deriving DecidableEq

/-- Modelled from the spec: `ScoringConfig` (spec section 6) with recognized
options `skillWeight`, `experienceWeight`, `minimumJobs`,
`textSimilarityWeight`. -/
structure ScoringConfig where
  skillWeight : ℚ
  experienceWeight : ℚ
  minimumJobs : Nat
  textSimilarityWeight : ℚ
deriving DecidableEq

/-- Modelled from the spec: the default configuration
(skillWeight 0.7, experienceWeight 0.3, minimumJobs 3,
textSimilarityWeight 0). -/
def defaultConfig : ScoringConfig :=
  { skillWeight := 7/10, experienceWeight := 3/10, minimumJobs := 3,
    textSimilarityWeight := 0 }

/-- Modelled from the spec: `MatchResult` (spec section 3). -/
structure MatchResult where
  jobId : String
  skillScore : ℚ
  experienceMatch : Bool
  overallScore : ℚ
  recommendation : String
deriving DecidableEq

/-- Modelled from the spec: a single skill token normalized — surrounding
whitespace removed, characters lowercased (spec sections 3 and 4.1 step 1).
Written at the character level so that it evaluates inside the kernel. -/
def lowerTrim (s : String) : String :=
  String.mk
    ((((s.data.dropWhile Char.isWhitespace).reverse.dropWhile
        Char.isWhitespace).reverse).map Char.toLower)

/-- Modelled from the spec: skill-token normalization — lowercase, trimmed,
deduplicated (spec sections 3 and 4.1 step 1). -/
def normalizeSkills (skills : List String) : List String :=
  (skills.map lowerTrim).dedup

/-- Modelled from the spec: the matched required skills — required skills
(normalized) that the candidate possesses (spec section 4.1 step 2). -/
def matchedSkills (c : CandidateProfile) (j : JobProfile) : List String :=
  (normalizeSkills j.requiredSkills).filter
    (fun s => decide (s ∈ normalizeSkills c.skills))

/-- Modelled from the spec: `skillScore = |intersection| / max(1, |requiredSkills|)`
(spec section 4.1 step 2). -/
def skillScoreOf (c : CandidateProfile) (j : JobProfile) : ℚ :=
  (matchedSkills c j).length / (max 1 (normalizeSkills j.requiredSkills).length : Nat)

/-- Modelled from the spec: the experience gate — true iff
`candidate.yearsOfExperience` is present and at least `job.yearsRequired`;
always true when `yearsRequired` is absent (spec section 4.1 step 3,
consistent with `test_check_experience_match`). -/
def experienceMatchOf (c : CandidateProfile) (j : JobProfile) : Bool :=
  match j.yearsRequired with
  | none => true
  | some r =>
    match c.yearsOfExperience with
    | none => false
    | some y => r ≤ y

/-- Modelled from the spec: the weighted overall score
`skillWeight * skillScore + experienceWeight * (1 if experienceMatch else 0)`
(spec section 4.1 step 4). -/
def overallScoreOf (cfg : ScoringConfig) (skillScore : ℚ)
    (experienceMatch : Bool) : ℚ :=
  cfg.skillWeight * skillScore +
    cfg.experienceWeight * (if experienceMatch then 1 else 0)

/-- Modelled from the spec: the recommendation tier of an overall score (spec
section 4.1 step 5), with one amendment forced by the repository test
`test_generate_recommendation_reason`, which requires score 0.3 to yield
"Limited match": the Moderate boundary is strict (`> 0.3`), not `≥ 0.3` as the
spec writes. -/
def tierLabel (score : ℚ) : String :=
  if 3/4 ≤ score then "Excellent match"
  else if 1/2 ≤ score then "Good match"
  else if 3/10 < score then "Moderate match"
  else "Limited match"

/-- Modelled from the spec: the experience-gate outcome text used in the
recommendation reason. -/
def experienceOutcomeText (experienceMatch : Bool) : String :=
  if experienceMatch then "experience requirement met"
  else "experience requirement not met"

/-- Modelled from the spec: the recommendation reason — the tier label
concatenated with the matched-skill count versus the required count and the
experience-gate outcome (spec section 4.1 step 5, same argument order as
`_generate_recommendation_reason` in the repository test). -/
def recommendationReason (score : ℚ) (experienceMatch : Bool)
    (matched total : Nat) : String :=
  tierLabel score ++ ": " ++ toString matched ++ " of " ++ toString total ++
    " required skills matched, " ++ experienceOutcomeText experienceMatch

/-- Modelled from the spec: scoring of a single candidate/job pair
(spec section 4.1). -/
def scorePair (cfg : ScoringConfig) (c : CandidateProfile) (j : JobProfile) :
    MatchResult :=
  let ss := skillScoreOf c j
  let em := experienceMatchOf c j
  let ov := overallScoreOf cfg ss em
  { jobId := j.id
    skillScore := ss
    experienceMatch := em
    overallScore := ov
    recommendation := recommendationReason ov em (matchedSkills c j).length
      (normalizeSkills j.requiredSkills).length }

/-- Modelled from the spec: the result ordering — overall score descending,
ties broken by job id ascending (spec section 4.1 output). -/
def matchOrder (a b : MatchResult) : Prop :=
  b.overallScore < a.overallScore ∨
    (a.overallScore = b.overallScore ∧ a.jobId ≤ b.jobId)

instance : DecidableRel matchOrder := fun a b => by
  unfold matchOrder; infer_instance

instance : IsTotal MatchResult matchOrder where
  total a b := by
    unfold matchOrder
    rcases lt_trichotomy a.overallScore b.overallScore with h | h | h
    · exact Or.inr (Or.inl h)
    · rcases le_total a.jobId b.jobId with h' | h'
      · exact Or.inl (Or.inr ⟨h, h'⟩)
      · exact Or.inr (Or.inr ⟨h.symm, h'⟩)
    · exact Or.inl (Or.inl h)

instance : IsTrans MatchResult matchOrder where
  trans a b c hab hbc := by
    unfold matchOrder at *
    rcases hab with hab | ⟨hab, hab'⟩
    · rcases hbc with hbc | ⟨hbc, _⟩
      · exact Or.inl (hbc.trans hab)
      · exact Or.inl (hbc ▸ hab)
    · rcases hbc with hbc | ⟨hbc, hbc'⟩
      · exact Or.inl (hbc.trans_eq hab.symm)
      · exact Or.inr ⟨hab.trans hbc, hab'.trans hbc'⟩

/-- Modelled from the spec: the ranked result list — one `MatchResult` per job,
sorted by `matchOrder` (spec section 4.1 output). -/
def rankResults (cfg : ScoringConfig) (c : CandidateProfile)
    (jobs : List JobProfile) : List MatchResult :=
  (jobs.map (scorePair cfg c)).insertionSort matchOrder

/-- Modelled from the spec: the engine's call contract
`score(candidate, jobs, config)` (spec section 6) — fails with
`InsufficientDataError` when fewer jobs than `minimumJobs` are supplied,
otherwise returns the ranked results. -/
def score (cfg : ScoringConfig) (c : CandidateProfile)
    (jobs : List JobProfile) : Except ScoreError (List MatchResult) :=
  if jobs.length < cfg.minimumJobs then .error .insufficientData
  else .ok (rankResults cfg c jobs)

/-- Modelled from the spec: config validation (spec sections 6 and 7) —
`InvalidConfigError` when the two weights do not sum to 1 within tolerance
`1e-6` or a weight is negative. -/
def validateConfig (cfg : ScoringConfig) : Except ScoreError Unit :=
  if |cfg.skillWeight + cfg.experienceWeight - 1| ≤ 1/1000000 ∧
      0 ≤ cfg.skillWeight ∧ 0 ≤ cfg.experienceWeight then .ok ()
  else .error .invalidConfig

/-- The sample candidate of `TestMatchingAgent.setUp`. -/
def sampleResume : CandidateProfile :=
  { skills := ["python", "django", "postgresql", "javascript"]
    yearsOfExperience := some 5 }

/-- The sample job of `TestMatchingAgent.setUp`. -/
def sampleJob : JobProfile :=
  { id := "job_1", requiredSkills := ["python", "django", "sql"]
    yearsRequired := some 3 }

/-- The senior job of `TestMatchingAgent.test_check_experience_match`. -/
def seniorJob : JobProfile :=
  { id := "job_2", requiredSkills := ["python"], yearsRequired := some 10 }

/-- A job with an empty required-skill list and no experience requirement. -/
def noSkillsJob : JobProfile :=
  { id := "job_0", requiredSkills := [], yearsRequired := none }

/-- The three-job collection used to exercise ranking at the default
`minimumJobs` of 3. -/
def jobs3 : List JobProfile := [sampleJob, seniorJob, noSkillsJob]

/-- A configuration with a negative weight, hence invalid. -/
def negConfig : ScoringConfig :=
  { skillWeight := -1, experienceWeight := 2, minimumJobs := 3,
    textSimilarityWeight := 0 }

/-- The configuration of the spec's config-validation example:
skillWeight 0.5, experienceWeight 0.4 (sums to 0.9). -/
def badConfig : ScoringConfig :=
  { skillWeight := 1/2, experienceWeight := 2/5, minimumJobs := 3,
    textSimilarityWeight := 0 }

/-- The pairwise ordering the spec requires of the returned result sequence:
non-increasing `overallScore`, and ascending job id on equal scores. -/
def matchPairwiseOrder (a b : MatchResult) : Prop :=
  b.overallScore ≤ a.overallScore ∧
    (a.overallScore = b.overallScore → a.jobId ≤ b.jobId)

/-!
## The resume agent (`agents/resume_agent.py`)

The agent's collaborators (`PDFReader`, `TextProcessor`, the LLM executor and
the JSON step of `_parse_agent_output`) perform I/O or parse free text; each
`analyze_resume` call is embedded as a pure function of the values those
collaborators produced during the call.
-/

/-- `ResumeData`, with the fields `_parse_agent_output` constructs
(`resume_agent.py` lines 249-270); unset fields default as the model's
optional fields do. -/
structure ResumeData where
  name : Option String := none
  email : Option String := none
  phone : Option String := none
  summary : Option String := none
  skills : List String := []
  experience : List String := []
  education : List String := []
  certifications : List String := []
  years_of_experience : Option Nat := none
  raw_text : String := ""
deriving DecidableEq

/-- The JSON object `_parse_agent_output` extracts from the agent output
(`resume_agent.py` lines 236-242): one field per key the code reads via
`parsed_data.get`, `none` modelling an absent key (an empty dict — no JSON
found in the output — is the value with every field `none`). -/
structure ParsedData where
  name : Option String := none
  email : Option String := none
  phone : Option String := none
  summary : Option String := none
  technical_skills : Option (List String) := none
  work_experiences : Option (List String) := none
  certifications : Option (List String) := none
  education_entries : Option (List String) := none
  total_years_experience : Option Nat := none
deriving DecidableEq

/-- The heuristic extraction results the code computes from the raw text via
`TextProcessor` (`resume_agent.py` lines 245-247): `extract_skills`,
`extract_years_of_experience` and `extract_education` applied to `raw_text`.
The `TextProcessor` source is not under the given sources, so its outputs are
taken as inputs here. -/
structure HeuristicFields where
  skills : List String
  years_of_experience : Option Nat
  education : List String
deriving DecidableEq

/-- `parsed_data.get("technical_skills", skills) or skills`
(`resume_agent.py` line 254): the heuristic skills are used when the key is
absent, and also when its value is falsy (the empty list). -/
def getSkillsOr (v : Option (List String)) (fallback : List String) :
    List String :=
  match v with
  | none => fallback
  | some [] => fallback
  | some l => l

/-- `ResumeAgent._parse_agent_output` (`resume_agent.py` lines 233-270).
`parsed = some pd` is the normal path with extracted JSON object `pd`;
`parsed = none` is the exception path (lines 262-270), which returns the
basic heuristic-only data. -/
def parseAgentOutput (h : HeuristicFields) (rawText : String)
    (parsed : Option ParsedData) : ResumeData :=
  match parsed with
  | some pd =>
    { name := pd.name
      email := pd.email
      phone := pd.phone
      summary := pd.summary
      skills := getSkillsOr pd.technical_skills h.skills
      experience := pd.work_experiences.getD []
      education := h.education
      certifications := pd.certifications.getD []
      years_of_experience := h.years_of_experience
      raw_text := rawText }
  | none =>
    { skills := h.skills
      years_of_experience := h.years_of_experience
      education := h.education
      raw_text := rawText }

/-- `AgentResponse`, with the fields `analyze_resume` sets. -/
structure AgentResponse where
  agent_name : String
  success : Bool
  message : String := ""
  data : Option ResumeData := none
  error : Option String := none
deriving DecidableEq

/-- Character-level model of `str.startswith`: written structurally so it
evaluates inside the kernel. -/
def charsStartWith : List Char → List Char → Bool
  | _, [] => true
  | [], _ :: _ => false
  | c :: cs, p :: ps => c == p && charsStartWith cs ps

/-- `text.startswith("Error:")` as used by `analyze_resume` line 191. -/
def strStartsWith (s p : String) : Bool :=
  charsStartWith s.data p.data

/-- The external effects of one `analyze_resume` call: the text produced by
`_extract_pdf_text` (which is total — its own `try`/`except` turns every
failure into an "Error: ..." string, lines 75-88), the agent-executor
invocation's outcome (`.error e` when line 209 raises with message `e`),
the heuristic extraction results on the extracted text, and the JSON object
extracted from the agent output (`none` when that parsing step raises). -/
structure AnalyzeEnv where
  extractedText : String
  agentOutcome : Except String String
  heuristics : HeuristicFields
  parsed : Option ParsedData

/-- `ResumeAgent.analyze_resume` (`resume_agent.py` lines 178-231).  The
body's `try`/`except` makes the call total: an "Error:" extraction result
returns the failure response of lines 192-197, an exception from the agent
invocation is caught at lines 224-231, and otherwise the parsed data is
returned with success (exceptions inside `_parse_agent_output` are caught
inside it and never reach this level). -/
def analyzeResume (agentName : String) (env : AnalyzeEnv) : AgentResponse :=
  if strStartsWith env.extractedText "Error:" then
    { agent_name := agentName, success := false
      message := "Failed to extract text from PDF"
      error := some env.extractedText }
  else
    match env.agentOutcome with
    | .error e =>
      { agent_name := agentName, success := false
        message := "Failed to analyze resume", error := some e }
    | .ok _output =>
      { agent_name := agentName, success := true
        message := "Resume analyzed successfully"
        data := some (parseAgentOutput env.heuristics env.extractedText
          env.parsed) }

/-- A parsed LLM output carrying well-formed education, experience-years and
skills values. -/
def llmParsed : ParsedData :=
  { name := some "John Doe"
    technical_skills := some ["python"]
    education_entries := some ["BS Computer Science, MIT"]
    total_years_experience := some 9 }

/-- Heuristic extraction results that differ from `llmParsed` on every
overlapping field. -/
def heur0 : HeuristicFields :=
  { skills := ["java"], years_of_experience := some 4
    education := ["BSc, Punjab University"] }

/-- An environment whose PDF extraction failed. -/
def envErr : AnalyzeEnv :=
  { extractedText := "Error: Invalid or corrupted PDF file"
    agentOutcome := .ok "done", heuristics := heur0, parsed := none }

/-! ## Shared evaluation lemmas -/

lemma sample_matchedSkills :
    matchedSkills sampleResume sampleJob = ["python", "django"] := by decide

lemma sample_requiredNormalized :
    normalizeSkills sampleJob.requiredSkills = ["python", "django", "sql"] := by
  decide

lemma sample_skillScore : skillScoreOf sampleResume sampleJob = 2/3 := by
  unfold skillScoreOf
  rw [sample_matchedSkills, sample_requiredNormalized]
  norm_num

lemma sample_experienceMatch :
    experienceMatchOf sampleResume sampleJob = true := by decide

lemma sample_overallScore :
    (scorePair defaultConfig sampleResume sampleJob).overallScore = 23/30 := by
  show overallScoreOf defaultConfig (skillScoreOf sampleResume sampleJob)
      (experienceMatchOf sampleResume sampleJob) = 23/30
  rw [sample_skillScore, sample_experienceMatch]
  unfold overallScoreOf defaultConfig
  norm_num

/-! ## Claim theorems -/

/-- C1: for every candidate/job pair, `overallScore` is the weighted sum
`skillWeight * skillScore + experienceWeight * (1 if experienceMatch else 0)`,
the default weights are 0.7 and 0.3, and the candidate of
`TestMatchingAgent.setUp` (skills python/django/postgresql/javascript,
5 years) scored against its sample job (required python/django/sql, 3 years
required) yields `skillScore = 2/3`, `experienceMatch = true` and
`overallScore = 23/30 ≈ 0.767`. -/
theorem overallScore_is_weighted_sum :
    (∀ (cfg : ScoringConfig) (c : CandidateProfile) (j : JobProfile),
      (scorePair cfg c j).overallScore =
        cfg.skillWeight * (scorePair cfg c j).skillScore +
          cfg.experienceWeight *
            (if (scorePair cfg c j).experienceMatch then 1 else 0)) ∧
    defaultConfig.skillWeight = 7/10 ∧
    defaultConfig.experienceWeight = 3/10 ∧
    (scorePair defaultConfig sampleResume sampleJob).skillScore = 2/3 ∧
    (scorePair defaultConfig sampleResume sampleJob).experienceMatch = true ∧
    (scorePair defaultConfig sampleResume sampleJob).overallScore = 23/30 ∧
    |(23/30 : ℚ) - 767/1000| < 1/1000 := by
  refine ⟨fun cfg c j => rfl, rfl, rfl, sample_skillScore,
    sample_experienceMatch, sample_overallScore, ?_⟩
  rw [abs_lt]
  constructor <;> norm_num

/-- C2 (counterexample): on a job whose required-skill set is empty, the
candidate's skills are (vacuously) a superset of the required skills, yet
`skillScore` is 0, not 1 — the spec's formula
`|intersection| / max(1, |requiredSkills|)` makes the superset clause fail
on the empty required set. -/
theorem skillScore_empty_superset_counterexample :
    normalizeSkills noSkillsJob.requiredSkills = [] ∧
    normalizeSkills noSkillsJob.requiredSkills ⊆
      normalizeSkills sampleResume.skills ∧
    skillScoreOf sampleResume noSkillsJob = 0 ∧ (0 : ℚ) ≠ 1 := by
  refine ⟨rfl, ?_, ?_, by norm_num⟩
  · intro s hs
    simp only [show normalizeSkills noSkillsJob.requiredSkills = [] from rfl,
      List.not_mem_nil] at hs
  · unfold skillScoreOf
    rw [show matchedSkills sampleResume noSkillsJob = [] from rfl,
      show normalizeSkills noSkillsJob.requiredSkills = [] from rfl]
    norm_num

/-- C2 (amended): `skillScore` equals the number of required skills the
candidate possesses (both sets lowercase/trim normalized) divided by
`max 1 |requiredSkills|`, always lies in `[0, 1]`, and equals 1 whenever the
normalized required-skill set is nonempty and the candidate's skills are a
superset of it. -/
theorem skillScore_formula_and_bounds (c : CandidateProfile) (j : JobProfile) :
    skillScoreOf c j =
      ((matchedSkills c j).length : ℚ) /
        ((max 1 (normalizeSkills j.requiredSkills).length : Nat) : ℚ) ∧
    0 ≤ skillScoreOf c j ∧ skillScoreOf c j ≤ 1 ∧
    (normalizeSkills j.requiredSkills ≠ [] →
      normalizeSkills j.requiredSkills ⊆ normalizeSkills c.skills →
      skillScoreOf c j = 1) := by
  refine ⟨rfl, ?_, ?_, ?_⟩
  · exact div_nonneg (Nat.cast_nonneg _) (Nat.cast_nonneg _)
  · apply div_le_one_of_le₀
    · exact_mod_cast Nat.le_trans (List.length_filter_le _ _)
        (Nat.le_max_right 1 _)
    · exact Nat.cast_nonneg _
  · intro hne hsub
    have hfull : matchedSkills c j = normalizeSkills j.requiredSkills := by
      unfold matchedSkills
      rw [List.filter_eq_self]
      intro a ha
      exact decide_eq_true (hsub ha)
    have hlen : 1 ≤ (normalizeSkills j.requiredSkills).length :=
      Nat.one_le_iff_ne_zero.mpr
        (fun h0 => hne (List.length_eq_zero.mp h0))
    unfold skillScoreOf
    rw [hfull, Nat.max_eq_right hlen]
    have hpos : (0 : ℚ) < (normalizeSkills j.requiredSkills).length := by
      exact_mod_cast Nat.lt_of_lt_of_le Nat.zero_lt_one hlen
    exact div_self hpos.ne'

/-- C2 (witness): the senior sample job has a nonempty required-skill set the
sample candidate covers, and its skill score is 1. -/
theorem skillScore_formula_and_bounds_witness :
    normalizeSkills seniorJob.requiredSkills ≠ [] ∧
    normalizeSkills seniorJob.requiredSkills ⊆
      normalizeSkills sampleResume.skills ∧
    skillScoreOf sampleResume seniorJob = 1 :=
  ⟨by decide, by decide,
    (skillScore_formula_and_bounds sampleResume seniorJob).2.2.2
      (by decide) (by decide)⟩

/-- C3: the experience gate is true iff the candidate's years of experience
are present and at least the job's required years (strict, tolerance 0), it
is always true when the job carries no experience requirement, and it behaves
as `TestMatchingAgent.test_check_experience_match` requires on the samples
(5 years against 3 required matches, 5 against 10 does not). -/
theorem experienceMatch_strict_gate (c : CandidateProfile) (j : JobProfile) :
    (experienceMatchOf c j = true ↔
      (j.yearsRequired = none ∨
        ∃ y r, c.yearsOfExperience = some y ∧ j.yearsRequired = some r ∧
          r ≤ y)) ∧
    (j.yearsRequired = none → experienceMatchOf c j = true) ∧
    experienceMatchOf sampleResume sampleJob = true ∧
    experienceMatchOf sampleResume seniorJob = false := by
  refine ⟨?_, ?_, by decide, by decide⟩
  · unfold experienceMatchOf
    rcases hj : j.yearsRequired with _ | r
    · simp
    · rcases hc : c.yearsOfExperience with _ | y
      · simp
      · simp only [decide_eq_true_eq, hj, reduceCtorEq, false_or]
        constructor
        · intro hle
          exact ⟨y, r, rfl, rfl, hle⟩
        · rintro ⟨y', r', hy', hr', hle⟩
          cases hy'
          cases Option.some.inj hr'
          exact hle
  · intro hj
    unfold experienceMatchOf
    rw [hj]

/-- C3 (witness): a job without a required-years field passes the gate for
the sample candidate. -/
theorem experienceMatch_strict_gate_witness :
    noSkillsJob.yearsRequired = none ∧
    experienceMatchOf sampleResume noSkillsJob = true :=
  ⟨rfl, (experienceMatch_strict_gate sampleResume noSkillsJob).2.1 rfl⟩

/-- C4 (counterexample): at an overall score of exactly 0.3 the tier is
"Limited match", not "Moderate match" as the claimed `≥ 0.3` threshold would
give — as required by the repository test
`test_generate_recommendation_reason`, which expects "Limited match" in the
reason generated for score 0.3. -/
theorem tier_at_boundary_counterexample :
    tierLabel (3/10) = "Limited match" ∧
    recommendationReason (3/10) false 1 5 =
      "Limited match: 1 of 5 required skills matched, " ++
        "experience requirement not met" ∧
    ("Limited match" : String) ≠ "Moderate match" := by
  have ht : tierLabel (3/10) = "Limited match" := by
    unfold tierLabel
    rw [if_neg (by norm_num), if_neg (by norm_num), if_neg (by norm_num)]
  refine ⟨ht, ?_, by decide⟩
  unfold recommendationReason experienceOutcomeText
  rw [ht]
  decide

/-- C4 (amended): the recommendation tier is "Excellent match" for overall
scores ≥ 0.75, "Good match" for scores in [0.5, 0.75), "Moderate match" for
scores in (0.3, 0.5) — the lower bound strict, as the repository test
requires — and "Limited match" for scores ≤ 0.3; the reason string is the
tier label followed by the matched-skill count versus the required count and
the experience-gate outcome, and each pair's recommendation is that reason
at the pair's own score, gate and counts. -/
theorem recommendation_tiers_and_reason :
    (∀ s : ℚ,
      (3/4 ≤ s → tierLabel s = "Excellent match") ∧
      (1/2 ≤ s → s < 3/4 → tierLabel s = "Good match") ∧
      (3/10 < s → s < 1/2 → tierLabel s = "Moderate match") ∧
      (s ≤ 3/10 → tierLabel s = "Limited match")) ∧
    (∀ (s : ℚ) (em : Bool) (m t : Nat),
      recommendationReason s em m t =
        tierLabel s ++ ": " ++ toString m ++ " of " ++ toString t ++
          " required skills matched, " ++ experienceOutcomeText em) ∧
    (∀ (cfg : ScoringConfig) (c : CandidateProfile) (j : JobProfile),
      (scorePair cfg c j).recommendation =
        recommendationReason (scorePair cfg c j).overallScore
          (scorePair cfg c j).experienceMatch
          (matchedSkills c j).length
          (normalizeSkills j.requiredSkills).length) ∧
    tierLabel (8/10) = "Excellent match" := by
  refine ⟨fun s => ⟨?_, ?_, ?_, ?_⟩, fun s em m t => rfl, fun cfg c j => rfl,
    ?_⟩
  · intro h
    unfold tierLabel
    rw [if_pos h]
  · intro h1 h2
    unfold tierLabel
    rw [if_neg (not_le.mpr h2), if_pos h1]
  · intro h1 h2
    unfold tierLabel
    rw [if_neg (by linarith), if_neg (not_le.mpr h2), if_pos h1]
  · intro h
    unfold tierLabel
    rw [if_neg (by linarith), if_neg (by linarith), if_neg (not_lt.mpr h)]
  · unfold tierLabel
    rw [if_pos (by norm_num)]

/-- C4 (witness): a score of 0.6 lies in [0.5, 0.75) and is tiered
"Good match". -/
theorem recommendation_tiers_and_reason_witness :
    (1/2 : ℚ) ≤ 3/5 ∧ (3/5 : ℚ) < 3/4 ∧ tierLabel (3/5) = "Good match" :=
  ⟨by norm_num, by norm_num,
    ((recommendation_tiers_and_reason.1 (3/5)).2.1 (by norm_num)
      (by norm_num))⟩

/-- C5: the ranked result sequence has one `MatchResult` per input job (its
job ids are a permutation of the input job ids, each appearing exactly once
when the input ids are distinct), it is pairwise ordered with `overallScore`
non-increasing and ties broken by ascending job id, and `score` returns
exactly this sequence whenever at least `minimumJobs` jobs are supplied. -/
theorem score_ranked_and_complete (cfg : ScoringConfig)
    (c : CandidateProfile) (jobs : List JobProfile) :
    (rankResults cfg c jobs).length = jobs.length ∧
    ((rankResults cfg c jobs).map MatchResult.jobId).Perm
      (jobs.map JobProfile.id) ∧
    (rankResults cfg c jobs).Pairwise matchPairwiseOrder ∧
    ((jobs.map JobProfile.id).Nodup →
      ((rankResults cfg c jobs).map MatchResult.jobId).Nodup) ∧
    (cfg.minimumJobs ≤ jobs.length →
      score cfg c jobs = .ok (rankResults cfg c jobs)) := by
  have hperm : (rankResults cfg c jobs).Perm (jobs.map (scorePair cfg c)) :=
    List.perm_insertionSort matchOrder _
  have hids : ((rankResults cfg c jobs).map MatchResult.jobId).Perm
      (jobs.map JobProfile.id) := by
    have h := hperm.map MatchResult.jobId
    rwa [List.map_map,
      show (MatchResult.jobId ∘ scorePair cfg c) = JobProfile.id from
        funext fun j => rfl] at h
  refine ⟨?_, hids, ?_, ?_, ?_⟩
  · rw [hperm.length_eq, List.length_map]
  · have hs : List.Sorted matchOrder (rankResults cfg c jobs) :=
      List.sorted_insertionSort matchOrder _
    refine hs.imp ?_
    intro a b hab
    rcases hab with hlt | ⟨heq, hle⟩
    · exact ⟨le_of_lt hlt, fun he => absurd (he ▸ hlt) (lt_irrefl _)⟩
    · exact ⟨le_of_eq heq.symm, fun _ => hle⟩
  · intro hnd
    exact hids.nodup_iff.mpr hnd
  · intro h
    unfold score
    rw [if_neg (not_lt.mpr h)]

/-- C5 (witness): on the three sample jobs (distinct ids, meeting the default
minimum of 3), `score` succeeds with the ranked results and the returned job
ids are distinct. -/
theorem score_ranked_and_complete_witness :
    (jobs3.map JobProfile.id).Nodup ∧
    defaultConfig.minimumJobs ≤ jobs3.length ∧
    ((rankResults defaultConfig sampleResume jobs3).map
      MatchResult.jobId).Nodup ∧
    score defaultConfig sampleResume jobs3 =
      .ok (rankResults defaultConfig sampleResume jobs3) :=
  ⟨by decide, by decide,
    (score_ranked_and_complete defaultConfig sampleResume jobs3).2.2.2.1
      (by decide),
    (score_ranked_and_complete defaultConfig sampleResume jobs3).2.2.2.2
      (by decide)⟩

/-- C6: `score` fails with `InsufficientDataError` whenever fewer jobs than
`minimumJobs` are supplied; in particular on the empty job collection it
fails whenever `minimumJobs ≥ 1`, and the default `minimumJobs` is 3. -/
theorem score_requires_minimum_jobs (cfg : ScoringConfig)
    (c : CandidateProfile) (jobs : List JobProfile) :
    (jobs.length < cfg.minimumJobs →
      score cfg c jobs = .error .insufficientData) ∧
    (1 ≤ cfg.minimumJobs → score cfg c [] = .error .insufficientData) ∧
    defaultConfig.minimumJobs = 3 := by
  refine ⟨?_, ?_, rfl⟩
  · intro h
    unfold score
    rw [if_pos h]
  · intro h
    unfold score
    rw [if_pos (show ([] : List JobProfile).length < cfg.minimumJobs from h)]

/-- C6 (witness): with the default configuration, scoring two jobs and
scoring no jobs both fail with `InsufficientDataError`. -/
theorem score_requires_minimum_jobs_witness :
    [sampleJob, seniorJob].length < defaultConfig.minimumJobs ∧
    score defaultConfig sampleResume [sampleJob, seniorJob] =
      .error .insufficientData ∧
    1 ≤ defaultConfig.minimumJobs ∧
    score defaultConfig sampleResume [] = .error .insufficientData :=
  ⟨by decide,
    (score_requires_minimum_jobs defaultConfig sampleResume
      [sampleJob, seniorJob]).1 (by decide),
    by decide,
    (score_requires_minimum_jobs defaultConfig sampleResume []).2.1
      (by decide)⟩

/-- C7: scoring is deterministic — identical inputs give identical outputs —
and a pair's `overallScore` is a function only of the pair's `skillScore` and
`experienceMatch`: two pairs agreeing on those two values get the same
overall score under the same configuration. -/
theorem score_deterministic (cfg cfg' : ScoringConfig)
    (c c' : CandidateProfile) (jobs jobs' : List JobProfile)
    (j j' : JobProfile) :
    (cfg = cfg' → c = c' → jobs = jobs' →
      score cfg c jobs = score cfg' c' jobs') ∧
    ((scorePair cfg c j).overallScore =
      overallScoreOf cfg (skillScoreOf c j) (experienceMatchOf c j)) ∧
    (skillScoreOf c j = skillScoreOf c' j' →
      experienceMatchOf c j = experienceMatchOf c' j' →
      (scorePair cfg c j).overallScore =
        (scorePair cfg c' j').overallScore) := by
  refine ⟨?_, rfl, ?_⟩
  · intro h1 h2 h3
    rw [h1, h2, h3]
  · intro h1 h2
    show overallScoreOf cfg (skillScoreOf c j) (experienceMatchOf c j) =
      overallScoreOf cfg (skillScoreOf c' j') (experienceMatchOf c' j')
    rw [h1, h2]

/-- C7 (witness): repeating the sample scoring call yields the identical
result. -/
theorem score_deterministic_witness :
    score defaultConfig sampleResume jobs3 =
      score defaultConfig sampleResume jobs3 :=
  (score_deterministic defaultConfig defaultConfig sampleResume sampleResume
    jobs3 jobs3 sampleJob sampleJob).1 rfl rfl rfl

/-- C8: config validation rejects with `InvalidConfigError` exactly the
configurations whose two weights do not sum to 1 within tolerance `1e-6` or
carry a negative weight; the default configuration passes, and the spec's
example `skillWeight = 0.5, experienceWeight = 0.4` (sum 0.9) is rejected. -/
theorem validateConfig_rejects_bad_weights (cfg : ScoringConfig) :
    (¬ |cfg.skillWeight + cfg.experienceWeight - 1| ≤ 1/1000000 ∨
        cfg.skillWeight < 0 ∨ cfg.experienceWeight < 0 →
      validateConfig cfg = .error .invalidConfig) ∧
    (validateConfig cfg = .error .invalidConfig →
      ¬ (|cfg.skillWeight + cfg.experienceWeight - 1| ≤ 1/1000000 ∧
          0 ≤ cfg.skillWeight ∧ 0 ≤ cfg.experienceWeight)) ∧
    validateConfig defaultConfig = .ok () ∧
    validateConfig badConfig = .error .invalidConfig ∧
    badConfig.skillWeight + badConfig.experienceWeight = 9/10 := by
  refine ⟨?_, ?_, ?_, ?_, by show (1/2 : ℚ) + 2/5 = 9/10; norm_num⟩
  · intro h
    unfold validateConfig
    rw [if_neg]
    rintro ⟨hA, hB, hC⟩
    rcases h with h | h | h
    · exact h hA
    · exact absurd hB (not_le.mpr h)
    · exact absurd hC (not_le.mpr h)
  · intro heq hcond
    unfold validateConfig at heq
    rw [if_pos hcond] at heq
    exact Except.noConfusion heq
  · have habs : |defaultConfig.skillWeight + defaultConfig.experienceWeight -
        1| = 0 := by
      rw [show defaultConfig.skillWeight + defaultConfig.experienceWeight -
        (1 : ℚ) = 0 from by show (7/10 : ℚ) + 3/10 - 1 = 0; norm_num]
      exact abs_zero
    unfold validateConfig
    rw [if_pos ⟨by rw [habs]; norm_num,
      by show (0 : ℚ) ≤ 7/10; norm_num,
      by show (0 : ℚ) ≤ 3/10; norm_num⟩]
  · unfold validateConfig
    rw [if_neg]
    rintro ⟨hA, -, -⟩
    rw [show badConfig.skillWeight + badConfig.experienceWeight - (1 : ℚ) =
        -(1/10) from by show (1/2 : ℚ) + 2/5 - 1 = -(1/10); norm_num,
      abs_neg, abs_of_nonneg (by norm_num : (0 : ℚ) ≤ 1/10)] at hA
    norm_num at hA

/-- C8 (witness): the configuration with `skillWeight = -1` has a negative
weight and is rejected with `InvalidConfigError`. -/
theorem validateConfig_rejects_bad_weights_witness :
    negConfig.skillWeight < 0 ∧
    validateConfig negConfig = .error .invalidConfig :=
  ⟨by show (-1 : ℚ) < 0; norm_num,
    (validateConfig_rejects_bad_weights negConfig).1
      (Or.inr (Or.inl (by show (-1 : ℚ) < 0; norm_num)))⟩

/-- C9 (counterexample): `_parse_agent_output` ignores the LLM-parsed
education and experience-years values even when they are present and
well-formed — with `education_entries` and `total_years_experience` set in
the parsed output, the resulting profile still carries the
heuristic-extracted education and years. -/
theorem parse_ignores_llm_education_counterexample :
    llmParsed.education_entries = some ["BS Computer Science, MIT"] ∧
    llmParsed.total_years_experience = some 9 ∧
    (parseAgentOutput heur0 "raw resume text" (some llmParsed)).education =
      ["BSc, Punjab University"] ∧
    (parseAgentOutput heur0 "raw resume text"
      (some llmParsed)).years_of_experience = some 4 ∧
    (["BSc, Punjab University"] : List String) ≠
      ["BS Computer Science, MIT"] ∧
    (some 4 : Option Nat) ≠ some 9 :=
  ⟨rfl, rfl, rfl, rfl, by decide, by decide⟩

/-- C9 (amended): in `_parse_agent_output` the LLM-parsed value wins for
name, email, phone and summary (with no heuristic fallback), for skills the
LLM value wins only when present and nonempty with the heuristic skills as
fallback, the experience entries use the LLM value with an empty-list (not
heuristic) fallback, while the education and years-of-experience fields
always take the heuristic-extracted values; the exception path of parsing
returns only the heuristic fields and the raw text. -/
theorem parse_field_precedence (h : HeuristicFields) (raw : String)
    (pd : ParsedData) :
    (parseAgentOutput h raw (some pd)).name = pd.name ∧
    (parseAgentOutput h raw (some pd)).email = pd.email ∧
    (parseAgentOutput h raw (some pd)).phone = pd.phone ∧
    (parseAgentOutput h raw (some pd)).summary = pd.summary ∧
    (pd.technical_skills = none →
      (parseAgentOutput h raw (some pd)).skills = h.skills) ∧
    (pd.technical_skills = some [] →
      (parseAgentOutput h raw (some pd)).skills = h.skills) ∧
    (∀ l, pd.technical_skills = some l → l ≠ [] →
      (parseAgentOutput h raw (some pd)).skills = l) ∧
    (parseAgentOutput h raw (some pd)).experience =
      pd.work_experiences.getD [] ∧
    (parseAgentOutput h raw (some pd)).certifications =
      pd.certifications.getD [] ∧
    (parseAgentOutput h raw (some pd)).education = h.education ∧
    (parseAgentOutput h raw (some pd)).years_of_experience =
      h.years_of_experience ∧
    (parseAgentOutput h raw (some pd)).raw_text = raw ∧
    parseAgentOutput h raw none =
      { skills := h.skills, years_of_experience := h.years_of_experience
        education := h.education, raw_text := raw } := by
  refine ⟨rfl, rfl, rfl, rfl, ?_, ?_, ?_, rfl, rfl, rfl, rfl, rfl, rfl⟩
  · intro he
    show getSkillsOr pd.technical_skills h.skills = h.skills
    rw [he]
    rfl
  · intro he
    show getSkillsOr pd.technical_skills h.skills = h.skills
    rw [he]
    rfl
  · intro l hl hne
    show getSkillsOr pd.technical_skills h.skills = l
    rw [hl]
    cases l with
    | nil => exact absurd rfl hne
    | cons a as => rfl

/-- C9 (witness): a present, nonempty LLM skill list wins over the heuristic
skills. -/
theorem parse_field_precedence_witness :
    llmParsed.technical_skills = some ["python"] ∧
    (["python"] : List String) ≠ [] ∧
    (parseAgentOutput heur0 "raw resume text" (some llmParsed)).skills =
      ["python"] :=
  ⟨rfl, by decide,
    (parse_field_precedence heur0 "raw resume text"
      llmParsed).2.2.2.2.2.2.1 ["python"] rfl (by decide)⟩

/-- C10: `analyze_resume` always returns an `AgentResponse` (the embedding is
a total function of the call's external effects): when PDF extraction yields
an "Error:"-string the response fails with that nonempty string as its error,
every failing response carries a populated error field, an exception raised
by the agent invocation produces a failing response carrying an error, and a
successful response carries the parsed `ResumeData`, whose `raw_text` equals
the extracted text on both the normal and the exception path of output
parsing. -/
theorem analyzeResume_total_and_error_reporting (nm : String)
    (env : AnalyzeEnv) :
    (strStartsWith env.extractedText "Error:" = true →
      (analyzeResume nm env).success = false ∧
      (analyzeResume nm env).error = some env.extractedText ∧
      env.extractedText ≠ "") ∧
    ((analyzeResume nm env).success = false →
      (analyzeResume nm env).error.isSome = true) ∧
    (∀ e, env.agentOutcome = .error e →
      (analyzeResume nm env).success = false ∧
      ((analyzeResume nm env).error = some env.extractedText ∨
        (analyzeResume nm env).error = some e)) ∧
    ((analyzeResume nm env).success = true →
      (analyzeResume nm env).data =
        some (parseAgentOutput env.heuristics env.extractedText
          env.parsed)) ∧
    (∀ p, (parseAgentOutput env.heuristics env.extractedText p).raw_text =
      env.extractedText) := by
  by_cases hs : strStartsWith env.extractedText "Error:" = true
  · have hne : env.extractedText ≠ "" := by
      intro hemp
      rw [hemp] at hs
      exact absurd hs (by decide)
    unfold analyzeResume
    rw [if_pos hs]
    exact ⟨fun _ => ⟨rfl, rfl, hne⟩, fun _ => rfl,
      fun e _ => ⟨rfl, Or.inl rfl⟩, fun hsucc => Bool.noConfusion hsucc,
      fun p => by cases p <;> rfl⟩
  · unfold analyzeResume
    rw [if_neg hs]
    cases ho : env.agentOutcome with
    | error e =>
      refine ⟨fun h => absurd h hs, fun _ => rfl, ?_,
        fun hsucc => Bool.noConfusion hsucc, fun p => by cases p <;> rfl⟩
      intro e' he'
      have hee : e = e' := by injection he'
      exact ⟨rfl, Or.inr (by rw [hee])⟩
    | ok out =>
      refine ⟨fun h => absurd h hs, fun hfail => Bool.noConfusion hfail,
        ?_, fun _ => rfl, fun p => by cases p <;> rfl⟩
      intro e' he'
      exact Except.noConfusion he'

/-- C10 (witness): on an environment whose extraction failed, the response
fails and reports the extraction error string. -/
theorem analyzeResume_total_and_error_reporting_witness :
    strStartsWith envErr.extractedText "Error:" = true ∧
    (analyzeResume "resume_analysis_agent" envErr).success = false ∧
    (analyzeResume "resume_analysis_agent" envErr).error =
      some envErr.extractedText :=
  ⟨by decide,
    ((analyzeResume_total_and_error_reporting "resume_analysis_agent"
      envErr).1 (by decide)).1,
    ((analyzeResume_total_and_error_reporting "resume_analysis_agent"
      envErr).1 (by decide)).2.1⟩

end ResumeParser
